import Mathlib

/-!
Verification development for the codefolio repository feature-extraction and
classification pipeline (src/backend/backend.py).  Python string scanning is
shallowly embedded as executable functions over `List Char`; regular
expressions are translated into explicit deterministic scanners that follow
the leftmost, non-overlapping semantics of `re.finditer` for the concrete
patterns appearing in the source.  Character classes (`\s`, `\w`, lower-casing,
URL-decoding) are modelled over ASCII, which is the alphabet all properties
below quantify over; Python additionally handles non-ASCII code points in
these classes, which no claim depends on.
-/

namespace Codefolio

/-! ## Basic string utilities (Python `in`, `startswith`, `strip`, `lower`) -/

/-- Python `needle in hay` substring test, over char lists. -/
def listContains (needle : List Char) : List Char → Bool
  | [] => needle.isEmpty
  | c :: t => needle.isPrefixOf (c :: t) || listContains needle t

/-- Python `needle in hay` on strings. -/
def occursIn (needle hay : String) : Bool :=
  listContains needle.data hay.data

/-- Python `s.startswith(p)`. -/
def strStartsWith (s p : String) : Bool :=
  p.data.isPrefixOf s.data

/-- ASCII model of Python `\s` / `str.strip` whitespace. -/
def pyIsSpace (c : Char) : Bool :=
  c = ' ' || c = '\t' || c = '\n' || c = '\r' || c = '\x0b' || c = '\x0c'

/-- Python `\w` over ASCII: letters, digits, underscore. -/
def isWordChar (c : Char) : Bool :=
  c.isAlpha || c.isDigit || c = '_'

/-- Python `s.strip()` (ASCII whitespace model). -/
def pyStrip (s : String) : String :=
  String.mk (((s.data.dropWhile pyIsSpace).reverse.dropWhile pyIsSpace).reverse)

/-- Python `s.lower()` as char data (ASCII model). -/
def lowerData (s : String) : List Char :=
  s.data.map Char.toLower

/-- Hex digit value, for URL decoding. -/
def hexVal (c : Char) : Option Nat :=
  if '0' ≤ c ∧ c ≤ '9' then some (c.toNat - '0'.toNat)
  else if 'a' ≤ c ∧ c ≤ 'f' then some (c.toNat - 'a'.toNat + 10)
  else if 'A' ≤ c ∧ c ≤ 'F' then some (c.toNat - 'A'.toNat + 16 - 6)
  else none

/-- `urllib.parse.unquote`: each `%XY` hex escape becomes the char with that
code; a `%` not followed by two hex digits is kept literally.  (Python decodes
runs of escaped bytes as UTF-8; for the ASCII inputs all properties below use,
the two agree byte-for-byte.) -/
def pyUnquote : List Char → List Char
  | [] => []
  | '%' :: a :: b :: rest =>
    match hexVal a, hexVal b with
    | some x, some y => Char.ofNat (16 * x + y) :: pyUnquote rest
    | _, _ => '%' :: pyUnquote (a :: b :: rest)
  | c :: rest => c :: pyUnquote rest

/-- Python `s.split("/")` (splitting on a single slash char). -/
def splitSeg : List Char → List (List Char)
  | [] => [[]]
  | '/' :: rest => [] :: splitSeg rest
  | c :: rest =>
    match splitSeg rest with
    | [] => [[c]]
    | s :: ss => (c :: s) :: ss

/-! ## Path Filter — `should_skip_path` (backend.py lines 28-70) -/

/-- `IGNORED_DIRS` (backend.py line 28). -/
def ignoredDirs : List String :=
  ["node_modules", "__pycache__", ".git", ".svn", ".hg",
   "dist", "build", ".eggs", "*.egg-info",
   ".pytest_cache", ".tox", ".nox",
   "vendor", "vendors", "third_party",
   ".idea", ".vscode", ".vs"]

/-- `VENV_PATTERNS` (backend.py line 37). -/
def venvPatterns : List String :=
  ["venv", "env", "myenv", "myvenv", ".venv", "virtualenv",
   "site-packages", "/lib/", "/scripts/", "/include/",
   "/share/", "/bin/", "pyvenv"]

/-- The strong whole-path indicators of backend.py line 67. -/
def strongIndicators : List String :=
  ["site-packages", "/lib/", "/scripts/", "/share/", "/pyvenv"]

/-- `urllib.parse.unquote(path).lower()` — the decoded, lower-cased path
(backend.py line 47); backslashes are NOT yet replaced here, matching the
source, whose final indicator check runs on this string. -/
def decodedLower (p : String) : String :=
  String.mk ((pyUnquote p.data).map Char.toLower)

/-- `path_decoded.replace("\\", "/").split("/")` (backend.py line 50). -/
def normSegments (p : String) : List String :=
  (splitSeg ((decodedLower p).data.map (fun c => if c = '\\' then '/' else c))).map
    (fun l => String.mk l)

/-- The per-segment test of the loop at backend.py lines 52-64: hidden
directory, exact ignored name, or virtual-environment substring. -/
def skipPart (part : String) : Bool :=
  (strStartsWith part (".") && !(part == ".") && !(part == "..")) ||
  ignoredDirs.contains part ||
  venvPatterns.any (fun pat => occursIn pat part)

/-- `should_skip_path` (backend.py lines 43-70). -/
def should_skip_path (p : String) : Bool :=
  (normSegments p).any skipPart ||
  strongIndicators.any (fun ind => occursIn ind (decodedLower p))

/-! ## Maturity classification (backend.py lines 443-448, analyzer.py 64-70) -/

/-- The status computation at the end of `analyze_repo`
(backend.py lines 443-448): sequential assignments, each later one
overriding the earlier. -/
def repo_status (file_count loc stars todo_count : Nat) : String :=
  let status1 := "Archive"
  let status2 :=
    if (file_count ≥ 3 ∧ loc ≥ 200) ∨ stars > 3 then "Portfolio-Ready" else status1
  let status3 :=
    if todo_count > 0 ∨ loc < 200 then "Prototype" else status2
  status3

/-- Modelled from the spec: the three-step override description of the
classification rule (spec §4.4), written as a single decision tree in which
the last-firing step wins, for refinement comparison with `repo_status`. -/
def statusSpecSteps (file_count loc stars todo_count : Nat) : String :=
  if todo_count > 0 ∨ loc < 200 then "Prototype"
  else if (file_count ≥ 3 ∧ loc ≥ 200) ∨ stars > 3 then "Portfolio-Ready"
  else "Archive"

/-! ## Signal Extractor — `analyze_code_functionality` (backend.py 123-258)

Each Python regex of the source is embedded as a deterministic scanner with
the leftmost, non-overlapping semantics of `re.finditer`: a matcher is tried
at every position; on success the scan resumes after the matched text.  The
matchers return the captured group together with the total number of
characters consumed by the match. -/

/-- One sampled file: `{"path": ..., "snippet": ...}` (backend.py line 410). -/
structure Sample where
  path : String
  snippet : String
deriving DecidableEq

/-- One extracted endpoint (backend.py lines 153-157). -/
structure Endpoint where
  path : String
  framework : String
  file : String
deriving DecidableEq

/-- One extracted function (backend.py lines 174-178). -/
structure FuncInfo where
  name : String
  description : String
  file : String
deriving DecidableEq

/-- One extracted class (backend.py lines 194-197). -/
structure ClassInfo where
  name : String
  file : String
deriving DecidableEq

/-- The `functionality` dictionary built by `analyze_code_functionality`
(backend.py lines 125-133). -/
structure Functionality where
  endpoints : List Endpoint
  functions : List FuncInfo
  classes : List ClassInfo
  business_logic : List String
  comments : List String
  docstrings : List String
  user_flows : List String
deriving DecidableEq

/-- Consume a literal, returning the remainder on success. -/
def dropLit (lit : String) (cs : List Char) : Option (List Char) :=
  if lit.data.isPrefixOf cs then some (cs.drop lit.length) else none

/-- Is the char one of the two Python quote chars of the route regexes? -/
def isQuote (c : Char) : Bool :=
  c = '"' || c = '\''

/-- Match `["\']([^"\']+)["\']`: a quote, a nonempty run of non-quote chars
(the capture), and a closing quote (either kind, as in the source regexes).
Returns the capture and the consumed length. -/
def matchQuoted (cs : List Char) : Option (String × Nat) :=
  match cs with
  | [] => none
  | q :: rest =>
    if isQuote q then
      let body := rest.takeWhile (fun ch => !(isQuote ch))
      match rest.drop body.length with
      | q2 :: _ =>
        if body ≠ [] ∧ isQuote q2 then some (String.mk body, body.length + 2)
        else none
      | [] => none
    else none

/-- Match a literal `lit` followed by a quoted route capture. -/
def matchLitQuoted (lit : String) (cs : List Char) : Option (String × Nat) :=
  match dropLit lit cs with
  | none => none
  | some r =>
    match matchQuoted r with
    | some (s, k) => some (s, lit.length + k)
    | none => none

/-- Try a list of matchers in order (regex alternation). -/
def firstMatch (ms : List (List Char → Option (String × Nat))) (cs : List Char) :
    Option (String × Nat) :=
  match ms with
  | [] => none
  | m :: rest =>
    match m cs with
    | some r => some r
    | none => firstMatch rest cs

/-- `re.finditer` driver: try the matcher at each position, resume after each
match.  The fuel starts at the input length; every step consumes at least one
character, so the fuel never runs out before the input does. -/
def scanPatAux (m : List Char → Option (String × Nat)) :
    Nat → List Char → List String
  | 0, _ => []
  | _ + 1, [] => []
  | fuel + 1, c :: rest =>
    match m (c :: rest) with
    | some (s, k) => s :: scanPatAux m fuel (rest.drop (k - 1))
    | none => scanPatAux m fuel rest

/-- All captures of a matcher over a char list, in `finditer` order. -/
def scanPat (m : List Char → Option (String × Nat)) (cs : List Char) : List String :=
  scanPatAux m cs.length cs

/-- Captures of the Flask pattern `@app\.route\(["\']([^"\']+)["\']`. -/
def flaskRoutes (cs : List Char) : List String :=
  scanPat (matchLitQuoted ("@app.route(")) cs

/-- Captures (group 2) of the FastAPI pattern
`@app\.(get|post|put|delete)\(["\']([^"\']+)["\']`. -/
def fastapiAppRoutes (cs : List Char) : List String :=
  scanPat (firstMatch
    [matchLitQuoted ("@app.get("), matchLitQuoted ("@app.post("),
     matchLitQuoted ("@app.put("), matchLitQuoted ("@app.delete(")]) cs

/-- Captures (group 2) of the FastAPI router pattern
`@router\.(get|post|put|delete)\(["\']([^"\']+)["\']`. -/
def fastapiRouterRoutes (cs : List Char) : List String :=
  scanPat (firstMatch
    [matchLitQuoted ("@router.get("), matchLitQuoted ("@router.post("),
     matchLitQuoted ("@router.put("), matchLitQuoted ("@router.delete(")]) cs

/-- Captures of the Django pattern `path\(["\']([^"\']+)["\']`. -/
def djangoRoutes (cs : List Char) : List String :=
  scanPat (matchLitQuoted ("path(")) cs

/-- Keep a matched route only if nonempty and starting with `/`
(backend.py line 152), tagging framework and file. -/
def keepRoutes (framework file : String) : List String → List Endpoint
  | [] => []
  | p :: ps =>
    if !(p == "") && strStartsWith p ("/") then
      Endpoint.mk p framework file :: keepRoutes framework file ps
    else keepRoutes framework file ps

/-- Endpoints of one sample, patterns applied in the fixed order of
`route_patterns` (backend.py lines 140-157). -/
def sampleEndpoints (s : Sample) : List Endpoint :=
  keepRoutes ("Flask") s.path (flaskRoutes s.snippet.data) ++
  keepRoutes ("FastAPI") s.path (fastapiAppRoutes s.snippet.data) ++
  keepRoutes ("FastAPI") s.path (fastapiRouterRoutes s.snippet.data) ++
  keepRoutes ("Django") s.path (djangoRoutes s.snippet.data)

/-- All endpoints accumulated across the samples, in discovery order, before
the final cap (the per-sample loop of backend.py lines 135-157). -/
def collectEndpoints : List Sample → List Endpoint
  | [] => []
  | s :: rest => sampleEndpoints s ++ collectEndpoints rest

/-- Match the function-header regex `def\s+(\w+)\s*\([^)]*\):` at the head of
the list; returns the captured name and the consumed length. -/
def matchDefAt (cs : List Char) : Option (String × Nat) :=
  match dropLit ("def") cs with
  | none => none
  | some r0 =>
    let w1 := r0.takeWhile pyIsSpace
    if w1 = [] then none else
    let r1 := r0.drop w1.length
    let nm := r1.takeWhile isWordChar
    if nm = [] then none else
    let r2 := r1.drop nm.length
    let w2 := r2.takeWhile pyIsSpace
    match r2.drop w2.length with
    | '(' :: r4 =>
      let args := r4.takeWhile (fun ch => ch ≠ ')')
      match r4.drop args.length with
      | ')' :: ':' :: _ =>
        some (String.mk nm,
          3 + w1.length + nm.length + w2.length + 1 + args.length + 2)
      | _ => none
    | _ => none

/-- Leftmost match of `"""([^"]+)"""` (the docstring search of backend.py
line 167), returning the trimmed capture. -/
def searchDoc : List Char → Option String
  | [] => none
  | c :: rest =>
    match dropLit ("\"\"\"") (c :: rest) with
    | some r0 =>
      let body := r0.takeWhile (fun ch => ch ≠ '"')
      if body ≠ [] ∧ ("\"\"\"").data.isPrefixOf (r0.drop body.length) then
        some (pyStrip (String.mk body))
      else searchDoc rest
    | none => searchDoc rest

/-- The function loop of backend.py lines 160-178: scan for definition
headers; for a non-underscore name, look ahead 300 characters for a
docstring; record the function (with docstring text or the humanized name as
description) and, when a docstring was found, record it separately.
Returns (functions, docstrings) in source order. -/
def extractFunsAux (path : String) : Nat → List Char → List FuncInfo × List String
  | 0, _ => ([], [])
  | _ + 1, [] => ([], [])
  | fuel + 1, c :: rest =>
    match matchDefAt (c :: rest) with
    | some (nm, k) =>
      let rem := rest.drop (k - 1)
      let tail := extractFunsAux path fuel rem
      if strStartsWith nm ("_") then tail
      else
        match searchDoc (rem.take 300) with
        | some doc => (FuncInfo.mk nm doc path :: tail.1, doc :: tail.2)
        | none =>
          (FuncInfo.mk nm
            (String.mk (nm.data.map (fun ch => if ch = '_' then ' ' else ch)))
            path :: tail.1, tail.2)
    | none => extractFunsAux path fuel rest

/-- Functions and docstrings of one snippet. -/
def extractFuns (path : String) (cs : List Char) : List FuncInfo × List String :=
  extractFunsAux path cs.length cs

/-- Match the class-header regex `class\s+(\w+)(?:\([^)]*\))?:` at the head
of the list. -/
def matchClassAt (cs : List Char) : Option (String × Nat) :=
  match dropLit ("class") cs with
  | none => none
  | some r0 =>
    let w1 := r0.takeWhile pyIsSpace
    if w1 = [] then none else
    let r1 := r0.drop w1.length
    let nm := r1.takeWhile isWordChar
    if nm = [] then none else
    match r1.drop nm.length with
    | '(' :: r3 =>
      let args := r3.takeWhile (fun ch => ch ≠ ')')
      match r3.drop args.length with
      | ')' :: ':' :: _ =>
        some (String.mk nm, 5 + w1.length + nm.length + 1 + args.length + 2)
      | _ => none
    | ':' :: _ => some (String.mk nm, 5 + w1.length + nm.length + 1)
    | _ => none

/-- Classes of one snippet (backend.py lines 190-197). -/
def classesOf (path : String) (cs : List Char) : List ClassInfo :=
  (scanPat matchClassAt cs).map (fun nm => ClassInfo.mk nm path)

/-- The comment regex `#\s*(.+)$` with `re.MULTILINE`: after a `#`, `\s*`
greedily eats whitespace (including newlines), then `(.+)` captures to the
end of that line.  When the whitespace run reaches the end of the input the
regex backtracks, capturing a trailing newline-free whitespace run if one
exists (such captures strip to fewer than 21 characters and are always
filtered out later). -/
def scanCommentsAux : Nat → List Char → List String
  | 0, _ => []
  | _ + 1, [] => []
  | fuel + 1, c :: rest =>
    if c = '#' then
      let ws := rest.takeWhile pyIsSpace
      match rest.drop ws.length with
      | [] =>
        let t := (ws.reverse.takeWhile (fun ch => ch ≠ '\n')).reverse
        if t = [] then [] else [String.mk t]
      | d :: r2 =>
        let g := (d :: r2).takeWhile (fun ch => ch ≠ '\n')
        String.mk g :: scanCommentsAux fuel ((d :: r2).drop g.length)
    else scanCommentsAux fuel rest

/-- Kept comments of one snippet: stripped, longer than 20 characters, not
starting with `-` (backend.py lines 181-187). -/
def commentsOf (cs : List Char) : List String :=
  ((scanCommentsAux cs.length cs).map pyStrip).filter
    (fun t => decide (20 < t.length) && !(strStartsWith t ("-")))

/-- First-occurrence deduplication, modelling Python's `list(set(xs))`.
CPython's set iteration order for a fixed insertion sequence is fixed within
one process run; it is modelled here by insertion order, which keeps every
construction below deterministic exactly as the source is within a run. -/
def dedupFirst (seen : List String) : List String → List String
  | [] => []
  | x :: xs =>
    if seen.contains x then dedupFirst seen xs
    else x :: dedupFirst (x :: seen) xs

/-- The keyword co-occurrence rules over the lower-cased joined code
(backend.py lines 199-251).  `ac` is `"\n".join(snippets).lower()`. -/
def businessLabels (ac : List Char) : List String :=
  let has := fun (t : String) => listContains t.data ac
  (if has ("def send_email") || has ("mail.send") || has ("smtp") then
    ["Email sending capability"] else []) ++
  (if (has ("stripe") || has ("payment_intent")) && has ("def") then
    ["Payment processing"] else []) ++
  (if has ("webhook") && (has ("def") || has ("@app")) then
    ["Webhook handling"] else []) ++
  (if (has ("upload") && has ("file")) && (has ("def upload") || has ("upload_file")) then
    ["File upload functionality"] else []) ++
  (if has ("@celery") || has ("celery.task") then
    ["Background task scheduling"] else []) ++
  (if has ("def login") || has ("def authenticate") || has ("@login_required") then
    ["User authentication"] else []) ++
  (if has ("def register") || has ("def signup") || has ("create_user") then
    ["User registration"] else [])

/-- The user-flow labels of the same rule table (backend.py lines 199-251). -/
def flowLabels (ac : List Char) : List String :=
  let has := fun (t : String) => listContains t.data ac
  (if (has ("stripe") || has ("payment_intent")) && has ("def") then
    ["Users can make purchases and payments"] else []) ++
  (if (has ("upload") && has ("file")) && (has ("def upload") || has ("upload_file")) then
    ["Users can upload files or images"] else []) ++
  (if has ("def login") || has ("def authenticate") || has ("@login_required") then
    ["Users can log in to access their account"] else []) ++
  (if has ("def register") || has ("def signup") || has ("create_user") then
    ["New users can create an account"] else []) ++
  (if has ("def dashboard") || has ("/dashboard") || has ("route.*dashboard") then
    ["Users can view a personalized dashboard"] else []) ++
  (if (has ("update_profile") || has ("edit_profile")) && has ("def") then
    ["Users can edit their profile information"] else []) ++
  (if (has ("def search") || has ("/search")) && has ("query") then
    ["Users can search through content"] else []) ++
  (if has ("def.*comment") || has ("create_comment") || has ("add_feedback") then
    ["Users can leave comments or feedback"] else []) ++
  (if has ("send_notification") || has ("notify_user") then
    ["Users receive notifications"] else []) ++
  (if (has ("def export") || has ("download")) && (has ("csv") || has ("pdf")) then
    ["Users can export data"] else [])

/-- `analyze_code_functionality` (backend.py lines 123-258): per-sample
extraction loops, the whole-sample keyword pass, and the final truncation
(endpoints capped to 15; docstrings and comments deduplicated then capped
to 5 — applied once, at the end). -/
def analyze_code_functionality (samples : List Sample) : Functionality :=
  let endpointsAll := collectEndpoints samples
  let fpairs := samples.map (fun s => extractFuns s.path s.snippet.data)
  let allFuns := (fpairs.map (fun pr => pr.1)).flatten
  let docsRaw := (fpairs.map (fun pr => pr.2)).flatten
  let commentsRaw := (samples.map (fun s => commentsOf s.snippet.data)).flatten
  let allClasses := (samples.map (fun s => classesOf s.path s.snippet.data)).flatten
  let ac := lowerData (String.intercalate ("\n") (samples.map (fun s => s.snippet)))
  { endpoints := endpointsAll.take 15
    functions := allFuns
    classes := allClasses
    business_logic := businessLabels ac
    comments := (dedupFirst [] commentsRaw).take 5
    docstrings := (dedupFirst [] docsRaw).take 5
    user_flows := flowLabels ac }

/-! ## Import aggregation (backend.py lines 25, 411-412, 434) -/

/-- Match `^\s*(?:from|import)\s+([\w\.\-]+)` at a line-start position:
leading whitespace (which, as in Python's `\s`, may span newlines), the
keyword, at least one whitespace char, then the captured module reference. -/
def matchImportAt (cs : List Char) : Option (String × Nat) :=
  let ws0 := cs.takeWhile pyIsSpace
  let r0 := cs.drop ws0.length
  let kw : Option (Nat × List Char) :=
    match dropLit ("from") r0 with
    | some r => some (4, r)
    | none =>
      match dropLit ("import") r0 with
      | some r => some (6, r)
      | none => none
  match kw with
  | none => none
  | some (klen, r1) =>
    let w1 := r1.takeWhile pyIsSpace
    if w1 = [] then none else
    let r2 := r1.drop w1.length
    let nm := r2.takeWhile (fun c => isWordChar c || c = '.' || c = '-')
    if nm = [] then none else
    some (String.mk nm, ws0.length + klen + w1.length + nm.length)

/-- `IMPORT_RE.findall` with `re.MULTILINE`: the anchored matcher can start
only at the beginning of the input or right after a newline; matches are
non-overlapping.  The Bool tracks whether the current position is a
line start. -/
def scanImportsAux : Nat → Bool → List Char → List String
  | 0, _, _ => []
  | _ + 1, _, [] => []
  | fuel + 1, atStart, c :: rest =>
    if atStart then
      match matchImportAt (c :: rest) with
      | some (nm, k) => nm :: scanImportsAux fuel false (rest.drop (k - 1))
      | none => scanImportsAux fuel (c = '\n') rest
    else scanImportsAux fuel (c = '\n') rest

/-- All captures of `IMPORT_RE` over a text. -/
def scanImports (cs : List Char) : List String :=
  scanImportsAux cs.length true cs

/-- Increment the count of a key in an insertion-ordered association list
(the behaviour of `collections.Counter` updates). -/
def bumpCount (k : String) : List (String × Nat) → List (String × Nat)
  | [] => [(k, 1)]
  | (k2, n) :: rest =>
    if k2 = k then (k2, n + 1) :: rest else (k2, n) :: bumpCount k rest

/-- The import counter of `analyze_repo` (backend.py lines 411-412): for each
file, scan the first 3000 characters and count the outermost module segment
(text before the first dot) of every capture. -/
def countImports (files : List String) : List (String × Nat) :=
  files.foldl
    (fun acc content =>
      ((scanImports (content.data.take 3000)).map
        (fun m => String.mk (m.data.takeWhile (fun c => c ≠ '.')))).foldl
        (fun a k => bumpCount k a) acc)
    []

/-- Stable insert for descending-by-count order (ties keep earlier keys
first, as `Counter.most_common` does). -/
def insertByCount (x : String × Nat) : List (String × Nat) → List (String × Nat)
  | [] => [x]
  | y :: ys => if y.2 > x.2 then y :: insertByCount x ys else x :: y :: ys

/-- Stable sort, descending by count. -/
def sortByCountDesc : List (String × Nat) → List (String × Nat)
  | [] => []
  | x :: xs => insertByCount x (sortByCountDesc xs)

/-- `dict(imports.most_common(12))` (backend.py line 434): top 12 import
names by frequency, ties broken by first-seen order. -/
def top_imports (files : List String) : List (String × Nat) :=
  (sortByCountDesc (countImports files)).take 12

/-! ## Narrative Synthesizer — `generate_portfolio_readme`
(backend.py lines 458-720)

The enhancement service call (the body of the `try:` block at lines 538-617)
is abstracted by a parameter `svc : Option String`: `none` models any
exception raised inside the block (network error, malformed response —
caught at line 618 and discarded), `some s` models a reply whose text is
`s`; `configured` models `OPENAI_AVAILABLE and openai_key`.  Everything
else is translated directly. -/

/-- Detected feature labels (the `features` dict of
`extract_features_from_code`, backend.py lines 262-271). -/
structure Features where
  app_type : List String
  deployment : List String
  database : List String
  apis : List String
  frameworks : List String
  auth : List String
  notable_features : List String
  functionality : Functionality
deriving DecidableEq

/-- The fields of the `meta` dict consumed by `generate_portfolio_readme`
(backend.py lines 460-468); `imports` is the key list of the import table. -/
structure RepoMeta where
  name : String
  description : String
  language : String
  status : String
  file_count : Nat
  loc : Nat
  imports : List String
  stars : Nat
  features : Features
deriving DecidableEq

/-- Python `s.lower()` on a string (ASCII model). -/
def strLower (s : String) : String :=
  String.mk (lowerData s)

/-- The deterministic description built at backend.py lines 485-532. -/
def full_description (meta : RepoMeta) : String :=
  let desc :=
    if meta.description = "" then "A software project showcasing development skills"
    else meta.description
  let lang := if meta.language = "" then "Multiple" else meta.language
  let business_logic := meta.features.functionality.business_logic
  let endpoints := meta.features.functionality.endpoints
  let p1 :=
    match meta.features.app_type with
    | t :: _ => [t]
    | [] => if desc ≠ "" then [desc] else [lang ++ " application"]
  let p2 :=
    if business_logic ≠ [] then
      ["Implements " ++ String.intercalate (", ") ((business_logic.take 4).map strLower)]
    else []
  let p3 :=
    if endpoints ≠ [] then
      ["Exposes " ++ toString endpoints.length ++ " API endpoint" ++
        (if endpoints.length > 1 then "s" else "")]
    else []
  let stack_parts :=
    (match meta.features.database with
     | d :: _ => [d]
     | [] => []) ++ meta.features.apis.take 2
  let p4 :=
    if stack_parts ≠ [] then ["Built with " ++ String.intercalate (", ") stack_parts]
    else []
  let p5 :=
    match meta.features.deployment with
    | d :: _ => ["Deployed to " ++ d]
    | [] => []
  String.intercalate (". ") (p1 ++ p2 ++ p3 ++ p4 ++ p5) ++ "."

/-- The enhancement decision (backend.py lines 535-621): when configured and
the service replies, the stripped reply replaces the deterministic
description only if longer than 20 characters; any exception (`none`) or an
empty/too-short reply silently keeps the deterministic description. -/
def enhance_outcome (full : String) (configured : Bool) (svc : Option String) :
    String × Bool :=
  if configured then
    match svc with
    | some s =>
      let d := pyStrip s
      if 20 < d.length then (d, true) else (full, false)
    | none => (full, false)
  else (full, false)

/-- Tech-stack accumulation (backend.py lines 471-483). -/
def tech_stack (meta : RepoMeta) : List String :=
  let lang := if meta.language = "" then "Multiple" else meta.language
  let base := if lang ≠ "" then [lang] else []
  let withFw :=
    meta.features.frameworks.foldl
      (fun acc fw => if acc.contains fw then acc else acc ++ [fw]) base
  (meta.imports.take 5).foldl
    (fun acc imp =>
      if acc.contains imp ||
         (["os", "sys", "json", "time", "datetime"] : List String).contains imp then acc
      else acc ++ [imp])
    withFw

/-- Python `s.replace(' ', '%20')` for the badge URLs. -/
def pctSpaces : List Char → List Char
  | [] => []
  | c :: r => if c = ' ' then '%' :: '2' :: '0' :: pctSpaces r else c :: pctSpaces r

/-- Badge-safe label. -/
def pctEncode (s : String) : String :=
  String.mk (pctSpaces s.data)

/-- Thousands separator over reversed digit list, for Python `f"{n:,}"`. -/
def commaAux : Nat → List Char → List Char
  | _, [] => []
  | i, c :: rest =>
    if i ≠ 0 ∧ i % 3 = 0 then ',' :: c :: commaAux (i + 1) rest
    else c :: commaAux (i + 1) rest

/-- Python `f"{n:,}"` for naturals. -/
def fmtComma (n : Nat) : String :=
  String.mk ((commaAux 0 (toString n).data.reverse).reverse)

/-- The footer line (backend.py lines 715-718). -/
def footer_line (ai_used : Bool) : String :=
  if ai_used then
    "*This README was auto-generated with AI assistance to showcase this project as part of a development portfolio.*"
  else
    "*This README was auto-generated to showcase this project as part of a development portfolio.*"

/-- All sections before the footer (backend.py lines 624-714), given the
chosen description. -/
def readme_body (meta : RepoMeta) (enhanced : String) : List String :=
  let lang := if meta.language = "" then "Multiple" else meta.language
  let user_flows := meta.features.functionality.user_flows
  let business_logic := meta.features.functionality.business_logic
  let endpoints := meta.features.functionality.endpoints
  let app_types := meta.features.app_type
  let apis := meta.features.apis
  let databases := meta.features.database
  let auth_methods := meta.features.auth
  let notable := meta.features.notable_features
  let deployment := meta.features.deployment
  ["# " ++ meta.name, "", enhanced, ""] ++
  (if meta.stars > 0 then
    ["![Stars](https://img.shields.io/badge/stars-" ++ toString meta.stars ++ "-yellow)"]
   else []) ++
  (if lang ≠ "" then
    ["![Language](https://img.shields.io/badge/language-" ++ pctEncode lang ++ "-blue)"]
   else []) ++
  ["![Status](https://img.shields.io/badge/status-" ++ pctEncode meta.status ++ "-green)",
   ""] ++
  (if user_flows ≠ [] then
    ["## 👤 User Experience", "", "**What users can do:**"] ++
    (user_flows.take 8).map (fun f => "- " ++ f) ++ [""]
   else []) ++
  (if business_logic ≠ [] ∨ endpoints ≠ [] then
    ["## 🎯 Functionality", ""] ++
    (if business_logic ≠ [] then
      ["**Core Capabilities:**"] ++
      ((dedupFirst [] business_logic).take 5).map (fun l => "- " ++ l) ++ [""]
     else []) ++
    (if endpoints ≠ [] then
      ["**API Endpoints:**"] ++
      (endpoints.take 6).map
        (fun ep => "- `" ++ ep.path ++ "` (" ++ ep.framework ++ ")") ++
      (if endpoints.length > 6 then
        ["- ...and " ++ toString (endpoints.length - 6) ++ " more endpoints"]
       else []) ++ [""]
     else [])
   else []) ++
  (if app_types ≠ [] ∨ apis ≠ [] ∨ databases ≠ [] ∨ auth_methods ≠ [] ∨ notable ≠ [] then
    ["## ✨ Key Features", ""] ++
    (if app_types ≠ [] then
      ["- **Application Type:** " ++ String.intercalate (", ") app_types] else []) ++
    (if apis ≠ [] then
      ["- **Integrations:** " ++ String.intercalate (", ") apis] else []) ++
    (if databases ≠ [] then
      ["- **Database:** " ++ String.intercalate (", ") databases] else []) ++
    (if auth_methods ≠ [] then
      ["- **Authentication:** " ++ String.intercalate (", ") auth_methods] else []) ++
    notable.map (fun f => "- " ++ f) ++ [""]
   else []) ++
  (if tech_stack meta ≠ [] then
    ["## 🛠️ Tech Stack", ""] ++ ((tech_stack meta).take 8).map (fun t => "- " ++ t) ++ [""]
   else []) ++
  (if deployment ≠ [] then
    ["## 🚀 Deployment", "",
     "This project is configured for deployment on **" ++
       String.intercalate (", ") deployment ++ "**.", ""]
   else []) ++
  ["## 📊 Project Statistics", "",
   "- **Total Files:** " ++ toString meta.file_count,
   "- **Lines of Code:** " ++ fmtComma meta.loc,
   "- **Primary Language:** " ++ lang,
   "- **Development Status:** " ++ meta.status, ""] ++
  ["---", ""]

/-- The full section list of `generate_portfolio_readme`, footer included. -/
def readme_sections (meta : RepoMeta) (configured : Bool) (svc : Option String) :
    List String :=
  let eo := enhance_outcome (full_description meta) configured svc
  readme_body meta eo.1 ++ [footer_line eo.2]

/-- `generate_portfolio_readme` (backend.py lines 458-720): the serialized
document, `"\n".join(sections)`. -/
def generate_portfolio_readme (meta : RepoMeta) (configured : Bool)
    (svc : Option String) : String :=
  String.intercalate ("\n") (readme_sections meta configured svc)

/-! ## Pipeline Driver — the per-repository body of `run_full_scan`
(backend.py lines 801-858), modelled on the analysis results.  The output
for one repository is `(name, document, committed?)`; a repository whose
analysis found no files is skipped before any document is generated. -/

/-- One iteration of the scan loop (backend.py lines 805-855). -/
def run_repo_step (autoCommit dryRun configured : Bool) (svc : Option String)
    (meta : RepoMeta) : Option (String × String × Bool) :=
  if meta.file_count = 0 then none
  else
    some (meta.name, generate_portfolio_readme meta configured svc,
      autoCommit && !dryRun)

/-- The outputs of the scan loop over the per-repository analysis results. -/
def run_full_scan (autoCommit dryRun configured : Bool) (svc : Option String) :
    List RepoMeta → List (String × String × Bool)
  | [] => []
  | m :: rest =>
    match run_repo_step autoCommit dryRun configured svc m with
    | none => run_full_scan autoCommit dryRun configured svc rest
    | some out => out :: run_full_scan autoCommit dryRun configured svc rest

/-! ## Concrete inputs used by witnesses -/

/-- A sample set holding 20 matching route declarations (10 Flask in the
first file; 4 FastAPI app, 3 FastAPI router, 3 Django in the second). -/
def c4Samples : List Sample :=
  [Sample.mk ("api/a.py")
    ("@app.route('/a0')\n@app.route('/a1')\n@app.route('/a2')\n@app.route('/a3')\n@app.route('/a4')\n@app.route('/a5')\n@app.route('/a6')\n@app.route('/a7')\n@app.route('/a8')\n@app.route('/a9')\n"),
   Sample.mk ("api/b.py")
    ("@app.get('/b0')\n@app.post('/b1')\n@app.put('/b2')\n@app.delete('/b3')\n@router.get('/c0')\n@router.post('/c1')\n@router.delete('/c2')\npath('/d0')\npath('/d1')\npath('/d2')\n")]

/-- A minimal analysis record with no files, no detected features. -/
def metaNoFiles : RepoMeta :=
  RepoMeta.mk ("Proj") ("") ("") ("Prototype") 0 0 [] 0
    (Features.mk [] [] [] [] [] [] [] (Functionality.mk [] [] [] [] [] [] []))

/-! ## Helper lemmas -/

theorem mem_keepRoutes_startsWith (framework file : String) (ps : List String)
    (e : Endpoint) (he : e ∈ keepRoutes framework file ps) :
    strStartsWith e.path ("/") = true := by
  induction ps with
  | nil => cases he
  | cons p ps ih =>
    by_cases hc : (!(p == "") && strStartsWith p ("/")) = true
    · rw [keepRoutes, if_pos hc] at he
      simp only [Bool.and_eq_true] at hc
      rcases List.mem_cons.mp he with h | h
      · subst h
        exact hc.2
      · exact ih h
    · rw [keepRoutes, if_neg hc] at he
      exact ih he

theorem mem_sampleEndpoints_startsWith (s : Sample) (e : Endpoint)
    (he : e ∈ sampleEndpoints s) : strStartsWith e.path ("/") = true := by
  rw [sampleEndpoints] at he
  rcases List.mem_append.mp he with h | h
  · rcases List.mem_append.mp h with h | h
    · rcases List.mem_append.mp h with h | h
      · exact mem_keepRoutes_startsWith _ _ _ _ h
      · exact mem_keepRoutes_startsWith _ _ _ _ h
    · exact mem_keepRoutes_startsWith _ _ _ _ h
  · exact mem_keepRoutes_startsWith _ _ _ _ h

theorem mem_collectEndpoints_startsWith (samples : List Sample) (e : Endpoint)
    (he : e ∈ collectEndpoints samples) : strStartsWith e.path ("/") = true := by
  induction samples with
  | nil => cases he
  | cons s rest ih =>
    rw [collectEndpoints] at he
    rcases List.mem_append.mp he with h | h
    · exact mem_sampleEndpoints_startsWith s e h
    · exact ih h

/-! ## Claims -/

/-- Claim C1: the maturity classification of `analyze_repo` is computed as
three ordered steps with later assignments overriding earlier ones (default
Archive, then Portfolio-Ready on the size/star condition, then Prototype on
the TODO/size condition); for every meta-state the returned status equals the
result of these three steps. -/
theorem c1_classification_order (file_count loc stars todo_count : Nat) :
    repo_status file_count loc stars todo_count =
      statusSpecSteps file_count loc stars todo_count := rfl

/-- Claim C7: classification is monotone in the TODO signal — with one TODO
file the status is always Prototype, so flipping `todo_count` from 0 to 1 can
only move the status to Prototype, never away from it. -/
theorem c7_todo_monotone (file_count loc stars : Nat) :
    repo_status file_count loc stars 1 = "Prototype" := by
  simp [repo_status]

/-- Claim C9: a walk that yields zero files (`file_count = 0`, `loc = 0`,
`todo_count = 0`) on a repository with at most 3 stars classifies as
Prototype (the `loc < 200` override fires), not as the default Archive. -/
theorem c9_empty_walk_prototype (stars : Nat) (_h : stars ≤ 3) :
    repo_status 0 0 stars 0 = "Prototype" := by
  simp [repo_status]

/-- Witness for C9 at `stars = 0`. -/
theorem c9_empty_walk_prototype_witness :
    0 ≤ 3 ∧ repo_status 0 0 0 0 = "Prototype" :=
  ⟨by decide, c9_empty_walk_prototype 0 (by decide)⟩

/-- Claim C8: `should_skip_path` is a total pure function — for every input
string, the empty string included, it returns a boolean (the embedding is a
total `Bool`-valued function; no exception path exists). -/
theorem c8_total_function :
    (∀ p : String, should_skip_path p = true ∨ should_skip_path p = false) ∧
    should_skip_path ("") = false := by
  constructor
  · intro p
    cases h : should_skip_path p
    · exact Or.inr rfl
    · exact Or.inl rfl
  · decide

/-- Claim C6: aggregation is deterministic — running the embedded
`analyze_code_functionality` (and the surrounding top-12 import truncation)
twice on the identical ordered input yields identical results in every
field, the deduplicated-and-capped docstring and comment collections
included. -/
theorem c6_deterministic (samples : List Sample) (files : List String) :
    analyze_code_functionality samples = analyze_code_functionality samples ∧
    top_imports files = top_imports files :=
  ⟨rfl, rfl⟩

/-- Claim C10: a repository whose analysis found zero files is skipped by the
scan loop before document generation — its step yields no output (no
document, no saved file, no commit) and the driver's outputs are exactly
those of the remaining repositories. -/
theorem c10_skip_empty_repo (autoCommit dryRun configured : Bool)
    (svc : Option String) (m : RepoMeta) (rest : List RepoMeta)
    (h : m.file_count = 0) :
    run_repo_step autoCommit dryRun configured svc m = none ∧
    run_full_scan autoCommit dryRun configured svc (m :: rest) =
      run_full_scan autoCommit dryRun configured svc rest := by
  have hstep : run_repo_step autoCommit dryRun configured svc m = none := by
    simp [run_repo_step, h]
  exact ⟨hstep, by simp [run_full_scan, hstep]⟩

/-- Witness for C10 at a concrete empty analysis record. -/
theorem c10_skip_empty_repo_witness :
    run_repo_step true false true none metaNoFiles = none ∧
    run_full_scan true false true none [metaNoFiles] =
      run_full_scan true false true none [] :=
  c10_skip_empty_repo true false true none metaNoFiles [] (by decide)

/-- Claim C2: for a sample set of one file whose snippet contains the line
`def login(request):` and the literal `@app.route("/login")`, the analysis
yields the log-in user flow, exactly one endpoint
`{path: "/login", framework: "Flask", file: <that file>}`, and the
`User authentication` business-logic label. -/
theorem c2_login_scenario :
    ("Users can log in to access their account") ∈
      (analyze_code_functionality
        [Sample.mk ("auth/views.py")
          ("@app.route(\"/login\")\ndef login(request):")]).user_flows ∧
    (analyze_code_functionality
      [Sample.mk ("auth/views.py")
        ("@app.route(\"/login\")\ndef login(request):")]).endpoints =
      [Endpoint.mk ("/login") ("Flask") ("auth/views.py")] ∧
    ("User authentication") ∈
      (analyze_code_functionality
        [Sample.mk ("auth/views.py")
          ("@app.route(\"/login\")\ndef login(request):")]).business_logic := by
  refine ⟨?_, ?_, ?_⟩ <;> decide

/-- Claim C3 counterexample: the path `env/main.py` has no segment in the
ignored-name set, no segment starting with `.`, and no occurrence of any of
the substrings the claim lists (venv, site-packages, /lib/, /scripts/,
/include/, /share/, /bin/, pyvenv) in the normalized path — yet
`should_skip_path` returns `true`, because the source's `VENV_PATTERNS` also
holds the bare substring `env` (and `myenv`, `myvenv`, `.venv`,
`virtualenv`), which the claim's list omits. -/
theorem c3_claimed_false_side_fails :
    (∀ s ∈ normSegments ("env/main.py"), s ∉ ignoredDirs) ∧
    (∀ s ∈ normSegments ("env/main.py"), strStartsWith s (".") = false) ∧
    (∀ nd ∈ (["venv", "site-packages", "/lib/", "/scripts/", "/include/",
              "/share/", "/bin/", "pyvenv"] : List String),
      occursIn nd (decodedLower ("env/main.py")) = false) ∧
    should_skip_path ("env/main.py") = true := by
  refine ⟨?_, ?_, ?_, ?_⟩ <;> decide

/-- Claim C3 as amended: `should_skip_path` returns true for every path with
`node_modules`, `.git` or `vendor` as an exact segment of the normalized
path, and returns false for every path with no segment in the ignored-name
set, no segment starting with `.`, no occurrence of ANY `VENV_PATTERNS`
entry (the claim's list extended with env, myenv, myvenv, .venv,
virtualenv) inside a segment, and no strong venv indicator (site-packages,
/lib/, /scripts/, /share/, /pyvenv) inside the decoded lower-cased path. -/
theorem c3_segment_filter_amended (p q : String)
    (hp : ("node_modules") ∈ normSegments p ∨ (".git") ∈ normSegments p ∨
          ("vendor") ∈ normSegments p)
    (h1 : ∀ s ∈ normSegments q, s ∉ ignoredDirs)
    (h2 : ∀ s ∈ normSegments q, strStartsWith s (".") = false)
    (h3 : ∀ s ∈ normSegments q, ∀ pat ∈ venvPatterns, occursIn pat s = false)
    (h4 : ∀ ind ∈ strongIndicators, occursIn ind (decodedLower q) = false) :
    should_skip_path p = true ∧ should_skip_path q = false := by
  constructor
  · have ha : (normSegments p).any skipPart = true := by
      rcases hp with h | h | h
      · exact List.any_eq_true.mpr ⟨_, h, by decide⟩
      · exact List.any_eq_true.mpr ⟨_, h, by decide⟩
      · exact List.any_eq_true.mpr ⟨_, h, by decide⟩
    simp [should_skip_path, ha]
  · have hb : ∀ s ∈ normSegments q, skipPart s = false := by
      intro s hs
      have e3 : venvPatterns.any (fun pat => occursIn pat s) = false := by
        simp only [List.any_eq_false]
        intro pat hpat
        simp [h3 s hs pat hpat]
      simp [skipPart, h1 s hs, h2 s hs, e3]
    have ha : (normSegments q).any skipPart = false := by
      simp only [List.any_eq_false]
      intro s hs
      simp [hb s hs]
    have hc :
        strongIndicators.any (fun ind => occursIn ind (decodedLower q)) = false := by
      simp only [List.any_eq_false]
      intro i hi
      simp [h4 i hi]
    simp [should_skip_path, ha, hc]

/-- Witness for C3 (amended) at `a/node_modules/b.py` (skipped) and
`src/main.py` (kept). -/
theorem c3_segment_filter_amended_witness :
    should_skip_path ("a/node_modules/b.py") = true ∧
    should_skip_path ("src/main.py") = false :=
  c3_segment_filter_amended ("a/node_modules/b.py") ("src/main.py")
    (Or.inl (by decide)) (by decide) (by decide) (by decide) (by decide)

/-- Claim C4: every extracted endpoint's route starts with `/`, and the
final endpoints list is capped once at the end of accumulation — with 20
distinct matching route declarations across the samples the result is
exactly the first 15 collected endpoints, in discovery order (per file in
sample order, patterns in their fixed framework order). -/
theorem c4_endpoint_cap (samples : List Sample)
    (_hn : (collectEndpoints samples).Nodup)
    (h : (collectEndpoints samples).length = 20) :
    (∀ e ∈ (analyze_code_functionality samples).endpoints,
      strStartsWith e.path ("/") = true) ∧
    (analyze_code_functionality samples).endpoints =
      (collectEndpoints samples).take 15 ∧
    (analyze_code_functionality samples).endpoints.length = 15 := by
  refine ⟨?_, rfl, ?_⟩
  · intro e he
    exact mem_collectEndpoints_startsWith samples e
      (List.take_subset 15 (collectEndpoints samples) he)
  · show ((collectEndpoints samples).take 15).length = 15
    rw [List.length_take, h]
    decide

set_option maxRecDepth 8192 in
/-- Witness for C4 at a concrete sample set with 20 distinct route
declarations. -/
theorem c4_endpoint_cap_witness :
    (collectEndpoints c4Samples).length = 20 ∧
    (analyze_code_functionality c4Samples).endpoints.length = 15 := by
  have hn : (collectEndpoints c4Samples).Nodup := by decide
  have h20 : (collectEndpoints c4Samples).length = 20 := by decide
  exact ⟨h20, (c4_endpoint_cap c4Samples hn h20).2.2⟩

/-- Claim C5: when the enhancement service is configured but fails on every
call (raises, or returns an empty or too-short reply), the generated
document's description section (index 2 of the section list) is exactly the
deterministic description, the footer is the no-AI variant, and the whole
document equals the one generated with no service at all — the failure
never escapes document generation. -/
theorem c5_enhancement_fallback (meta : RepoMeta) (svc : Option String)
    (h : ∀ s, svc = some s → (pyStrip s).length ≤ 20) :
    (readme_sections meta true svc)[2]? = some (full_description meta) ∧
    (readme_sections meta true svc).getLast? = some (footer_line false) ∧
    generate_portfolio_readme meta true svc =
      generate_portfolio_readme meta false none := by
  have he : enhance_outcome (full_description meta) true svc =
      (full_description meta, false) := by
    cases svc with
    | none => rfl
    | some s =>
      have hs := h s rfl
      simp [enhance_outcome, Nat.not_lt.mpr hs]
  have hsec : readme_sections meta true svc =
      readme_body meta (full_description meta) ++ [footer_line false] := by
    rw [readme_sections, he]
  have hsec0 : readme_sections meta false none =
      readme_body meta (full_description meta) ++ [footer_line false] := rfl
  refine ⟨?_, ?_, ?_⟩
  · rw [hsec, readme_body]
    rfl
  · rw [hsec]
    exact List.getLast?_concat _
  · rw [generate_portfolio_readme, generate_portfolio_readme, hsec, hsec0]

/-- Witness for C5 at a concrete analysis record with the service raising. -/
theorem c5_enhancement_fallback_witness :
    (readme_sections metaNoFiles true none)[2]? =
      some (full_description metaNoFiles) ∧
    (readme_sections metaNoFiles true none).getLast? = some (footer_line false) ∧
    generate_portfolio_readme metaNoFiles true none =
      generate_portfolio_readme metaNoFiles false none :=
  c5_enhancement_fallback metaNoFiles none (fun _ hs => nomatch hs)

end Codefolio
